import Mathlib

/-!
Shallow embedding of the JTAG VPI server (`src/sim/jtag_vpi_server.cpp`) and of the
CRC-8 helpers from the OpenOCD side (`src/openocd/patched/oscan1.c`,
`src/openocd/test_protocol.c`), together with theorems settling the behavioural
claims about protocol detection, the scan engine, the OScan1/SF0 engine, the
reset pulse queue, command validation, and connection teardown.

Byte buffers are modelled as functions `Nat → Nat` (index to byte value); machine
arithmetic on `uint8_t`/`uint32_t` is modelled on `Nat` with explicit masking where
the C code can overflow.  Socket I/O is modelled by passing the data the code reads
(or the success of a non-blocking peek) as explicit arguments, and by returning the
bytes the code writes.
-/

namespace JtagVpi

/-- Little-endian view of a 4-byte field (`le32_to_host` in jtag_vpi_server.cpp). -/
def le32_to_host (b : Nat → Nat) : Nat :=
  b 0 ||| (b 1 <<< 8) ||| (b 2 <<< 16) ||| (b 3 <<< 24)

/-- Big-endian (network order) view of a 4-byte field (`be32_to_host`, also `ntohl`). -/
def be32_to_host (b : Nat → Nat) : Nat :=
  (b 0 <<< 24) ||| (b 1 <<< 16) ||| (b 2 <<< 8) ||| b 3

/-- Writes a 32-bit value as 4 little-endian bytes (`host_to_le32`); in the code it is
always applied to a freshly `memset`-zeroed field, so indices past 3 read 0. -/
def host_to_le32 (v : Nat) : Nat → Nat := fun i =>
  if i = 0 then v &&& 0xFF
  else if i = 1 then (v >>> 8) &&& 0xFF
  else if i = 2 then (v >>> 16) &&& 0xFF
  else if i = 3 then (v >>> 24) &&& 0xFF
  else 0

/-- Models `memset(buf, 0, n)` on a byte buffer. -/
def memset0 (old : Nat → Nat) (n : Nat) : Nat → Nat := fun j => if j < n then 0 else old j

/-- Models `memcpy(dst, src, n)` on byte buffers. -/
def memcpyN (dst src : Nat → Nat) (n : Nat) : Nat → Nat := fun j => if j < n then src j else dst j

/-- One MSB-first CRC-8 bit step with polynomial 0x07, on a `uint8_t` accumulator
(shared inner loop of `oscan1_calc_crc8` in oscan1.c and `cjtag_crc8` in
test_protocol.c). -/
def crc8_bit_step (crc : Nat) : Nat :=
  if crc &&& 0x80 ≠ 0 then ((crc <<< 1) ^^^ 0x07) &&& 0xFF else (crc <<< 1) &&& 0xFF

/-- Absorbs one data byte into the CRC-8 accumulator: XOR in the byte, then 8 bit steps. -/
def crc8_update (crc b : Nat) : Nat :=
  (List.range 8).foldl (fun c _ => crc8_bit_step c) ((crc ^^^ b) &&& 0xFF)

/-- Embeds `oscan1_calc_crc8` (src/openocd/patched/oscan1.c): polynomial 0x07,
MSB-first, initial value 0x00. -/
def oscan1_calc_crc8 (data : List Nat) : Nat := data.foldl crc8_update 0x00

/-- Embeds `cjtag_crc8` (src/openocd/test_protocol.c): polynomial 0x07, MSB-first,
initial value 0xFF. -/
def cjtag_crc8 (data : List Nat) : Nat := data.foldl crc8_update 0xFF

/-- The `ProtocolMode` enum of JtagVpiServer. -/
inductive ProtocolMode
  | Unknown
  | OpenocdVpi
  | Legacy8Byte
deriving DecidableEq

/-- The `ScanState` enum of JtagVpiServer. -/
inductive ScanState
  | Idle
  | ReceivingTms
  | ReceivingTdi
  | Processing
  | SendingTdo
deriving DecidableEq

/-- The SF0 (OScan1) engine phase enum (`SF0_IDLE`, `SF0_SEND_TMS`, `SF0_SEND_TDI`). -/
inductive SF0State
  | Idle
  | SendTms
  | SendTdi
deriving DecidableEq

/-- The spec's connection dialect: Unknown, OpenOCDMinimal, OpenOCDFull, Legacy8Byte.
The code represents it as the pair (`protocol_mode`, `vpi_minimal_mode`). -/
inductive Dialect
  | Unknown
  | OpenocdMinimal
  | OpenocdFull
  | Legacy8Byte
deriving DecidableEq

/-- The 8-byte `MinimalVpiCmd` structure: command byte, 3 pad bytes, 4 length bytes
(kept as raw bytes because the code applies both endianness readings to them). -/
structure MinimalVpiCmd where
  cmd : Nat
  pad : Nat → Nat
  length_buf : Nat → Nat

/-- The 4-byte `MinimalVpiResp` structure. -/
structure MinimalVpiResp where
  response : Nat
  tdo_val : Nat
  mode : Nat
  status : Nat
deriving DecidableEq

/-- The legacy 8-byte `vpi_cmd` structure: command byte, 3 pad bytes, 4 length bytes
(interpreted big-endian via `ntohl`). -/
structure VpiCmd where
  cmd : Nat
  pad : Nat → Nat
  length_buf : Nat → Nat

/-- The legacy 4-byte `vpi_resp` structure. -/
structure VpiResp where
  response : Nat
  tdo_val : Nat
  mode : Nat
  status : Nat
deriving DecidableEq

/-- The 1036-byte `OcdVpiCmd` packet: 4 command bytes, 512-byte `buffer_out`,
512-byte `buffer_in`, 4 length bytes, 4 nb_bits bytes, all kept as raw bytes. -/
structure OcdVpiCmd where
  cmd_buf : Nat → Nat
  buffer_out : Nat → Nat
  buffer_in : Nat → Nat
  length_buf : Nat → Nat
  nb_bits_buf : Nat → Nat

/-- The signal request handed to the driver by `get_pending_signals`. -/
structure SigReq where
  tms : Nat
  tdi : Nat
  mode_sel : Nat
  tck_pulse : Bool
  tckc_toggle : Bool
deriving DecidableEq

/-- An all-zero `OcdVpiCmd` (result of `memset(&pkt, 0, sizeof(pkt))`). -/
def zeroOcdVpiCmd : OcdVpiCmd :=
  { cmd_buf := fun _ => 0, buffer_out := fun _ => 0, buffer_in := fun _ => 0,
    length_buf := fun _ => 0, nb_bits_buf := fun _ => 0 }

/-- An all-zero `MinimalVpiCmd`. -/
def zeroMinimalVpiCmd : MinimalVpiCmd :=
  { cmd := 0, pad := fun _ => 0, length_buf := fun _ => 0 }

/-- The mutable state of one `JtagVpiServer` (the fields of the class that the
modelled member functions read or write; the socket descriptors are abstracted to
a connection flag). -/
structure ServerState where
  client_connected : Bool
  protocol_mode : ProtocolMode
  current_tdo : Nat
  current_tdo_en : Nat
  current_idcode : Nat
  current_mode : Nat
  msb_first : Bool
  pending_tms : Nat
  pending_tdi : Nat
  pending_mode_select : Nat
  pending_tck_pulse : Bool
  reset_pulses_remaining : Nat
  pending_tckc_toggle : Bool
  tckc_toggle_consumed : Bool
  minimal_cmd_rx : MinimalVpiCmd
  minimal_rx_bytes : Nat
  vpi_cmd_rx : OcdVpiCmd
  vpi_rx_bytes : Nat
  vpi_cmd_tx : OcdVpiCmd
  vpi_tx_bytes : Nat
  vpi_tx_pending : Bool
  vpi_minimal_mode : Bool
  tms_seq_active : Bool
  tms_seq_num_bits : Nat
  tms_seq_bit_index : Nat
  tms_seq_buf : Nat → Nat
  sf0_state : SF0State
  sf0_tms : Nat
  sf0_tdi : Nat
  sf0_tdo : Nat
  scan_state : ScanState
  scan_is_legacy : Bool
  scan_num_bits : Nat
  scan_num_bytes : Nat
  scan_bit_index : Nat
  scan_tms_buf : Nat → Nat
  scan_tdi_buf : Nat → Nat
  scan_tdo_buf : Nat → Nat
  scan_bytes_received : Nat
  scan_bytes_sent : Nat

/-- The state established by the `JtagVpiServer` constructor.  The scan byte buffers
are uninitialised in C++ (they are always `memset` before use); they are taken as
zero here.  `sf0_state` starts in the idle phase (the OScan1 operation's initial
phase per the data model). -/
def initialState : ServerState :=
  { client_connected := false
    protocol_mode := ProtocolMode.Unknown
    current_tdo := 0
    current_tdo_en := 0
    current_idcode := 0
    current_mode := 0
    msb_first := false
    pending_tms := 0
    pending_tdi := 0
    pending_mode_select := 0
    pending_tck_pulse := false
    reset_pulses_remaining := 0
    pending_tckc_toggle := false
    tckc_toggle_consumed := false
    minimal_cmd_rx := zeroMinimalVpiCmd
    minimal_rx_bytes := 0
    vpi_cmd_rx := zeroOcdVpiCmd
    vpi_rx_bytes := 0
    vpi_cmd_tx := zeroOcdVpiCmd
    vpi_tx_bytes := 0
    vpi_tx_pending := false
    vpi_minimal_mode := false
    tms_seq_active := false
    tms_seq_num_bits := 0
    tms_seq_bit_index := 0
    tms_seq_buf := fun _ => 0
    sf0_state := SF0State.Idle
    sf0_tms := 0
    sf0_tdi := 0
    sf0_tdo := 0
    scan_state := ScanState.Idle
    scan_is_legacy := true
    scan_num_bits := 0
    scan_num_bytes := 0
    scan_bit_index := 0
    scan_tms_buf := fun _ => 0
    scan_tdi_buf := fun _ => 0
    scan_tdo_buf := fun _ => 0
    scan_bytes_received := 0
    scan_bytes_sent := 0 }

/-- The connection dialect in the spec's terms, read off the code's representation:
`protocol_mode` plus, within the OpenOCD family, the `vpi_minimal_mode` flag. -/
def dialect (s : ServerState) : Dialect :=
  match s.protocol_mode with
  | ProtocolMode.Unknown => Dialect.Unknown
  | ProtocolMode.Legacy8Byte => Dialect.Legacy8Byte
  | ProtocolMode.OpenocdVpi =>
      if s.vpi_minimal_mode then Dialect.OpenocdMinimal else Dialect.OpenocdFull

/-- Embeds `JtagVpiServer::update_signals` (4-argument overload). -/
def update_signals (s : ServerState) (tdo tdo_en idcode mode : Nat) : ServerState :=
  { s with current_tdo := tdo, current_tdo_en := tdo_en,
           current_idcode := idcode, current_mode := mode }

/-- Embeds `JtagVpiServer::get_pending_signals` (with the `tckc_toggle` out-pointer
present, as the simulation drivers pass it): queued reset pulses are served first;
otherwise the call returns a request exactly when a TCK pulse or TCKC toggle is
pending or the mode selection differs from the observed mode, clearing the pulse
and toggle flags.  The C guard `!(tck || tckc) && !(mode_sel != mode)` is written
as the equivalent three-way conjunction. -/
def get_pending_signals (s : ServerState) : ServerState × Option SigReq :=
  if s.reset_pulses_remaining > 0 then
    ({ s with reset_pulses_remaining := s.reset_pulses_remaining - 1 },
     some { tms := 1, tdi := 0, mode_sel := s.pending_mode_select,
            tck_pulse := true, tckc_toggle := false })
  else if s.pending_tck_pulse = false ∧ s.pending_tckc_toggle = false ∧
          s.pending_mode_select = s.current_mode then
    (s, none)
  else
    ({ s with pending_tck_pulse := false,
              tckc_toggle_consumed :=
                if s.pending_tckc_toggle then true else s.tckc_toggle_consumed,
              pending_tckc_toggle := false },
     some { tms := s.pending_tms, tdi := s.pending_tdi, mode_sel := s.pending_mode_select,
            tck_pulse := s.pending_tck_pulse, tckc_toggle := s.pending_tckc_toggle })

/-- Embeds `JtagVpiServer::close_connection` (state-reset part; the socket close and
diagnostics are I/O).  Note which fields the function does and does not reset. -/
def close_connection (s : ServerState) : ServerState :=
  { s with client_connected := false
           protocol_mode := ProtocolMode.Unknown
           vpi_rx_bytes := 0
           vpi_tx_pending := false
           vpi_minimal_mode := false
           scan_state := ScanState.Idle
           tms_seq_active := false }

/-- Embeds the success path of `JtagVpiServer::send_minimal_response`: the 4-byte
response is fully written and `vpi_minimal_mode` is set.  The non-blocking retry
loop and its error handling are I/O and not modelled. -/
def send_minimal_response (s : ServerState) (response tdo_val mode status : Nat) :
    ServerState × MinimalVpiResp :=
  ({ s with vpi_minimal_mode := true },
   { response := response, tdo_val := tdo_val, mode := mode, status := status })

/-- Builds the transmit packet header the code prepares with `memset` plus three
`host_to_le32` stores. -/
def mk_tx_header (cmd length nb_bits : Nat) : OcdVpiCmd :=
  { zeroOcdVpiCmd with cmd_buf := host_to_le32 cmd,
                       length_buf := host_to_le32 length,
                       nb_bits_buf := host_to_le32 nb_bits }

/-- The 8-byte command `process_vpi_packet` parses in minimal mode: `minimal_cmd_rx`
when that buffer is full, otherwise the first 8 bytes of `vpi_cmd_rx` reinterpreted
(byte 0 is the command, bytes 4..7 — the start of `buffer_out` — are the length). -/
def minimal_cmd_source (s : ServerState) : MinimalVpiCmd :=
  if s.minimal_rx_bytes ≥ 8 then s.minimal_cmd_rx
  else { cmd := s.vpi_cmd_rx.cmd_buf 0,
         pad := fun i => s.vpi_cmd_rx.cmd_buf (i + 1),
         length_buf := s.vpi_cmd_rx.buffer_out }

/-- The minimal-mode length heuristic of `process_vpi_packet`: read the 4 length
bytes big-endian, and fall back to little-endian when the big-endian reading
exceeds 4096. -/
def minimal_parse_length (m : MinimalVpiCmd) : Nat :=
  let len_be := be32_to_host m.length_buf
  let len_le := le32_to_host m.length_buf
  if len_be ≤ 4096 then len_be else len_le

/-- The command code `process_vpi_packet` dispatches on: the minimal command byte in
minimal mode, else the little-endian 32-bit `cmd` field of the full packet. -/
def vpi_decoded_cmd (s : ServerState) : Nat :=
  if s.vpi_minimal_mode then (minimal_cmd_source s).cmd
  else le32_to_host s.vpi_cmd_rx.cmd_buf

/-- Embeds `JtagVpiServer::process_vpi_packet` (jtag_vpi_server.cpp lines 436-625).
The C `switch` is written as an if-chain with the 2/3 fall-through made explicit.
The returned option is the 4-byte minimal response, when one is sent. -/
def process_vpi_packet (s : ServerState) : ServerState × Option MinimalVpiResp :=
  let cmd := vpi_decoded_cmd s
  let nb_bits := if s.vpi_minimal_mode then minimal_parse_length (minimal_cmd_source s)
                 else le32_to_host s.vpi_cmd_rx.nb_bits_buf
  if cmd = 0 then
    -- CMD_RESET
    let s1 := { s with reset_pulses_remaining := 6, pending_tms := 1, pending_tdi := 0,
                       pending_tck_pulse := true }
    if s.vpi_minimal_mode then
      let sr := send_minimal_response s1 0 0 s1.current_mode 0
      ({ sr.1 with reset_pulses_remaining := 0, pending_tck_pulse := false }, some sr.2)
    else
      ({ s1 with vpi_cmd_tx := mk_tx_header cmd 0 0, vpi_tx_pending := true,
                 vpi_tx_bytes := 0 }, none)
  else if cmd = 1 then
    -- CMD_TMS_SEQ
    let nb_bytes0 := (nb_bits + 7) / 8
    let nb_bytes := if nb_bytes0 > 512 then 512 else nb_bytes0
    let s1 := { s with tms_seq_active := true, tms_seq_num_bits := nb_bits,
                       tms_seq_bit_index := 0,
                       tms_seq_buf := memcpyN s.tms_seq_buf s.vpi_cmd_rx.buffer_out nb_bytes }
    if s.vpi_minimal_mode = false then
      ({ s1 with vpi_cmd_tx := mk_tx_header cmd 0 0, vpi_tx_pending := true,
                 vpi_tx_bytes := 0 }, none)
    else (s1, none)
  else if cmd = 2 ∨ cmd = 3 then
    -- CMD_SCAN_CHAIN / CMD_SCAN_CHAIN_FLIP_TMS (CMD_SET_PORT in minimal mode)
    if s.vpi_minimal_mode ∧ cmd = 3 then
      let sr := send_minimal_response s 0 s.current_tdo s.current_mode 0
      (sr.1, some sr.2)
    else if s.vpi_minimal_mode then
      let sr := send_minimal_response s 0 s.current_tdo s.current_mode 0
      if nb_bits = 0 ∨ nb_bits > 4096 then (sr.1, some sr.2)
      else
        ({ sr.1 with scan_num_bits := nb_bits, scan_num_bytes := (nb_bits + 7) / 8,
                     scan_bit_index := 0, scan_bytes_received := 0, scan_bytes_sent := 0,
                     scan_tms_buf := memset0 sr.1.scan_tms_buf 512,
                     scan_tdi_buf := memset0 sr.1.scan_tdi_buf 512,
                     scan_tdo_buf := memset0 sr.1.scan_tdo_buf 512,
                     scan_state := ScanState.ReceivingTms }, some sr.2)
    else
      -- full OpenOCD mode: no bit-count validation is performed here
      let num_bytes := (nb_bits + 7) / 8
      let tms_a := memset0 s.scan_tms_buf num_bytes
      let tms_b :=
        if cmd = 3 ∧ nb_bits > 0 then
          fun j => if j = (nb_bits - 1) / 8
                   then tms_a ((nb_bits - 1) / 8) ||| (1 <<< ((nb_bits - 1) % 8))
                   else tms_a j
        else tms_a
      ({ s with scan_num_bits := nb_bits, scan_num_bytes := num_bytes, scan_bit_index := 0,
                scan_bytes_received := num_bytes, scan_bytes_sent := 0,
                scan_is_legacy := false,
                scan_tdo_buf := memset0 s.scan_tdo_buf 512,
                scan_tms_buf := tms_b,
                scan_tdi_buf := memcpyN s.scan_tdi_buf s.vpi_cmd_rx.buffer_out num_bytes,
                scan_state := ScanState.Processing,
                vpi_cmd_tx := mk_tx_header cmd num_bytes nb_bits,
                vpi_tx_bytes := 0, vpi_tx_pending := false }, none)
  else if cmd = 4 then
    -- CMD_STOP_SIMU
    (close_connection s, none)
  else if cmd = 5 then
    -- CMD_OSCAN1: start the two-phase SF0 engine
    let tdi := s.vpi_cmd_rx.buffer_out 0 &&& 1
    let tms := (s.vpi_cmd_rx.buffer_out 0 >>> 1) &&& 1
    ({ s with pending_mode_select := 1, pending_tms := tms, pending_tdi := 0,
              pending_tckc_toggle := true,
              sf0_state := SF0State.SendTms, sf0_tms := tms, sf0_tdi := tdi, sf0_tdo := 0,
              vpi_cmd_tx := mk_tx_header 5 1 2, vpi_tx_pending := false,
              vpi_tx_bytes := 0 }, none)
  else (s, none)

/-- Embeds `JtagVpiServer::process_scan` (legacy scan setup with its bounds check). -/
def process_scan (s : ServerState) (num_bits : Nat) : ServerState :=
  if num_bits = 0 ∨ num_bits > 4096 then s
  else
    { s with scan_num_bits := num_bits, scan_num_bytes := (num_bits + 7) / 8,
             scan_bit_index := 0, scan_bytes_received := 0, scan_bytes_sent := 0,
             scan_is_legacy := true,
             scan_tms_buf := memset0 s.scan_tms_buf 512,
             scan_tdi_buf := memset0 s.scan_tdi_buf 512,
             scan_tdo_buf := memset0 s.scan_tdo_buf 512,
             scan_state := ScanState.ReceivingTms }

/-- Embeds `JtagVpiServer::process_command` (legacy 8-byte protocol, lines 912-991).
`ntohl(cmd->length)` is the big-endian reading of the stored length bytes.  Returns
the updated state, the content of the caller's 4-byte response out-parameter, and
whether that response is transmitted: the validation branch (opcode > 0x0F, or
length > 4096 with a non-SCAN opcode) records error status 1 in the out-parameter
but returns before the send, so nothing is transmitted (the caller discards the
struct); every path through the switch reaches the send (`send_resp` is never
cleared), which transmits the response when a client is connected.  The send's
failure/retry handling is socket I/O and not modelled. -/
def process_command (s : ServerState) (c : VpiCmd) : ServerState × VpiResp × Bool :=
  let length := be32_to_host c.length_buf
  if c.cmd > 0x0F ∨ (length > 4096 ∧ c.cmd ≠ 0x02) then
    (s, { response := 1, tdo_val := 0, mode := 0, status := 0 }, false)
  else if c.cmd = 0x00 then
    ({ s with reset_pulses_remaining := 6, pending_tms := 1, pending_tdi := 0,
              pending_tck_pulse := true },
     { response := 0, tdo_val := s.current_tdo, mode := 0, status := 0 },
     s.client_connected)
  else if c.cmd = 0x02 then
    (process_scan s length,
     { response := 0, tdo_val := s.current_tdo, mode := 0, status := 0 },
     s.client_connected)
  else if c.cmd = 0x03 then
    (s, { response := 0, tdo_val := 0, mode := 0, status := 0 }, s.client_connected)
  else if c.cmd = 0x05 then
    (s, { response := 0, tdo_val := s.current_tdo, mode := 0, status := 0 },
     s.client_connected)
  else
    (s, { response := 1, tdo_val := 0, mode := 0, status := 0 }, s.client_connected)

/-- Bit position inside a byte for bit index `i`: `7 - i % 8` MSB-first, `i % 8`
LSB-first (the shared index arithmetic of the scan engine). -/
def bitPos (msb : Bool) (i : Nat) : Nat := if msb then 7 - i % 8 else i % 8

/-- One TDO capture into a byte, as the scan engine performs it on `uint8_t`:
set the bit when `current_tdo` is non-zero, clear it otherwise. -/
def captureByte (b pos tdo : Nat) : Nat :=
  if tdo ≠ 0 then b ||| (1 <<< pos) else b &&& (255 ^^^ (1 <<< pos))

/-- Stores the observed TDO of bit `bit` into the TDO buffer at byte `bit / 8`,
bit position `bitPos msb bit`. -/
def scan_capture (buf : Nat → Nat) (bit : Nat) (msb : Bool) (tdo : Nat) : Nat → Nat :=
  fun j => if j = bit / 8 then captureByte (buf (bit / 8)) (bitPos msb bit) tdo else buf j

/-- Embeds the `SCAN_PROCESSING` case of `JtagVpiServer::continue_scan`
(jtag_vpi_server.cpp lines 1047-1117); the other cases of that `switch` perform
socket I/O and are not needed by the claims.  While a TCK pulse is pending the call
returns without progress; otherwise the previous bit's TDO is captured, and either
the next bit's pulse is requested (the C `while` body always returns, so it runs at
most once) or, with all bits done, the last TDO is captured again and the state
advances to `SendingTdo` (legacy) or `Idle` (OpenOCD). -/
def continue_scan_processing (s : ServerState) : ServerState :=
  if s.scan_state = ScanState.Processing then
    if s.pending_tck_pulse then s
    else
      let s1 := if s.scan_bit_index > 0 then
          { s with scan_tdo_buf :=
              scan_capture s.scan_tdo_buf (s.scan_bit_index - 1) s.msb_first s.current_tdo }
        else s
      if s1.scan_bit_index < s1.scan_num_bits then
        let byte_idx := s1.scan_bit_index / 8
        let bit_pos := bitPos s1.msb_first s1.scan_bit_index
        { s1 with pending_tms := (s1.scan_tms_buf byte_idx >>> bit_pos) &&& 1,
                  pending_tdi := (s1.scan_tdi_buf byte_idx >>> bit_pos) &&& 1,
                  pending_tck_pulse := true,
                  scan_bit_index := s1.scan_bit_index + 1 }
      else
        let s2 := if s1.scan_bit_index > 0 then
            { s1 with scan_tdo_buf :=
                scan_capture s1.scan_tdo_buf (s1.scan_bit_index - 1) s1.msb_first s1.current_tdo }
          else s1
        if s2.scan_is_legacy then
          { s2 with scan_bytes_sent := 0, scan_state := ScanState.SendingTdo }
        else
          { s2 with scan_state := ScanState.Idle }
  else s

/-- Embeds the SF0 branch of `JtagVpiServer::continue_vpi_work` (lines 647-688): in
`SendTms`, once the TCKC toggle has been consumed, set up the falling edge carrying
TDI; in `SendTdi`, once that toggle has been consumed, capture `current_tdo`, write
it into the response packet and queue it, returning to `Idle`. -/
def continue_vpi_work_sf0 (s : ServerState) : ServerState :=
  if s.sf0_state = SF0State.SendTms then
    if s.pending_tckc_toggle = true ∨ s.tckc_toggle_consumed = false then s
    else
      { s with pending_tdi := s.sf0_tdi, pending_tms := 0,
               pending_tckc_toggle := true, tckc_toggle_consumed := false,
               sf0_state := SF0State.SendTdi }
  else if s.sf0_state = SF0State.SendTdi then
    if s.pending_tckc_toggle = true ∨ s.tckc_toggle_consumed = false then s
    else
      let tdo := s.current_tdo &&& 1
      { s with sf0_tdo := tdo,
               vpi_cmd_tx := { s.vpi_cmd_tx with
                 buffer_in := fun j => if j = 0 then tdo else s.vpi_cmd_tx.buffer_in j },
               vpi_tx_pending := true, vpi_tx_bytes := 0,
               sf0_state := SF0State.Idle }
  else s

/-- Embeds the protocol-detection step of `JtagVpiServer::poll` (lines 180-211),
from the point where the receive buffer holds bytes; `more_data_available` is the
result of the non-blocking `MSG_PEEK` (`peek_ret > 0`).  With at least 8 bytes
buffered the mode becomes OpenOCD; with more data already queued the 8 bytes move
into the full-packet buffer (byte 0 the command, bytes 4..7 landing in
`buffer_out`), else the connection stays in minimal 8-byte mode. -/
def detect_protocol (s : ServerState) (more_data_available : Bool) : ServerState :=
  if s.minimal_rx_bytes ≥ 1 then
    if s.minimal_rx_bytes ≥ 8 then
      let s1 := { s with protocol_mode := ProtocolMode.OpenocdVpi }
      if more_data_available then
        { s1 with vpi_cmd_rx := { s1.vpi_cmd_rx with
                    cmd_buf := fun i => if i = 0 then s.minimal_cmd_rx.cmd
                                        else s.minimal_cmd_rx.pad (i - 1),
                    buffer_out := fun i => if i < 4 then s.minimal_cmd_rx.length_buf i
                                           else s1.vpi_cmd_rx.buffer_out i },
                  vpi_rx_bytes := 8, minimal_rx_bytes := 0,
                  minimal_cmd_rx := zeroMinimalVpiCmd, vpi_minimal_mode := false }
      else
        { s1 with vpi_minimal_mode := true }
    else s
  else s

/-- Embeds the follow-on minimal/full re-detection of `JtagVpiServer::continue_vpi_work`
(lines 820-849), taken with 8 ≤ `vpi_rx_bytes` < 1036: when exactly 8 bytes are
buffered and the peek shows nothing queued, the connection switches to minimal mode
and the 8 bytes are processed as a minimal command; otherwise full-packet mode is
(re)asserted.  `more_data` is `peek_ret > 0`; the peek-error teardown sub-branch is
socket I/O and not modelled. -/
def continue_vpi_work_detect (s : ServerState) (more_data : Bool) :
    ServerState × Option MinimalVpiResp :=
  if 8 ≤ s.vpi_rx_bytes ∧ s.vpi_rx_bytes < 1036 then
    if s.vpi_rx_bytes = 8 ∧ more_data = false then
      let s1 := { s with
        vpi_minimal_mode := true,
        minimal_cmd_rx := { cmd := s.vpi_cmd_rx.cmd_buf 0,
                            pad := fun i => s.vpi_cmd_rx.cmd_buf (i + 1),
                            length_buf := s.vpi_cmd_rx.buffer_out },
        minimal_rx_bytes := 8,
        vpi_rx_bytes := 0,
        vpi_cmd_rx := zeroOcdVpiCmd }
      let pr := process_vpi_packet s1
      ({ pr.1 with minimal_rx_bytes := 0, minimal_cmd_rx := zeroMinimalVpiCmd }, pr.2)
    else
      ({ s with vpi_minimal_mode := false }, none)
  else (s, none)

/-- Applies `continue_scan_processing` (one `poll` reaching the scan engine) `k`
times; used to express that extra polls between driver steps are harmless. -/
def pollN : Nat → ServerState → ServerState
  | 0, s => s
  | k + 1, s => pollN k (continue_scan_processing s)

/-- One driver round during a scan: any number of extra polls, then the driver
consumes the pending request via `get_pending_signals`, reports the observed TDO
through `update_signals` (re-reporting the other signals), and the next poll runs
the scan engine. -/
def scanRound (s : ServerState) (tdo : Nat) (k : Nat) : ServerState :=
  let s1 := pollN k s
  let s2 := (get_pending_signals s1).1
  let s3 := update_signals s2 tdo s2.current_tdo_en s2.current_idcode s2.current_mode
  continue_scan_processing s3

/-- Iterates `scanRound` for bits `0, 1, ...`: after round `i` the driver has applied
bit `i` and reported `S i`, and the engine has captured it. -/
def scanRun (S ks : Nat → Nat) : Nat → ServerState → ServerState
  | 0, s => s
  | i + 1, s => scanRound (scanRun S ks i s) (S i) (ks i)

/-- Iterates the state part of `get_pending_signals` (the driver pulling requests
back to back). -/
def gpsIter : Nat → ServerState → ServerState
  | 0, s => s
  | k + 1, s => (get_pending_signals (gpsIter k s)).1

/-- The driver schedule of one OScan1 edge command: process the packet, consume the
TMS-phase TCKC toggle, poll (which sets up the TDI phase), consume the TDI-phase
toggle, report the observed TDO, and poll again (which captures it). -/
def c9_run (s : ServerState) : ServerState :=
  let s1 := (process_vpi_packet s).1
  let s2 := (get_pending_signals s1).1
  let s3 := continue_vpi_work_sf0 s2
  let s4 := (get_pending_signals s3).1
  let s5 := update_signals s4 1 s4.current_tdo_en s4.current_idcode s4.current_mode
  continue_vpi_work_sf0 s5

/-- Invariant of the scan engine after round `i`: the engine is still processing,
has requested the pulse for bit `i` (so `scan_bit_index = i + 1` and a pulse is
pending), and the TDO bits of all earlier rounds are stored at their positions. -/
def ScanInv (n : Nat) (m : Bool) (S : Nat → Nat) (i : Nat) (u : ServerState) : Prop :=
  u.scan_state = ScanState.Processing ∧
  u.scan_bit_index = i + 1 ∧
  u.pending_tck_pulse = true ∧
  u.pending_tckc_toggle = false ∧
  u.reset_pulses_remaining = 0 ∧
  u.scan_num_bits = n ∧
  u.scan_is_legacy = false ∧
  u.msb_first = m ∧
  ∀ j, j < i → (u.scan_tdo_buf (j / 8)).testBit (bitPos m j) = decide (S j ≠ 0)

/-- A concrete scan start state: a 2-bit OpenOCD-mode scan ready in `Processing`. -/
def c1_start : ServerState := { initialState with
  scan_state := ScanState.Processing,
  scan_num_bits := 2,
  scan_num_bytes := 1,
  scan_is_legacy := false }

/-- A concrete observed-TDO sequence: bit 0 reads 1, bit 1 reads 0. -/
def c1_S : Nat → Nat := fun i => if i = 0 then 1 else 0

/-- A concrete poll schedule: two extra polls before each driver step. -/
def c1_ks : Nat → Nat := fun _ => 2

/-- A fresh connection with exactly 8 bytes buffered whose first byte 0x07 lies
outside the valid opcode range. -/
def c2_input : ServerState := { initialState with
  minimal_rx_bytes := 8,
  minimal_cmd_rx := { cmd := 0x07, pad := fun _ => 0, length_buf := fun _ => 0 } }

/-- A full-OpenOCD-mode connection with a complete 1036-byte RESET packet. -/
def c4_full_input : ServerState := { initialState with
  protocol_mode := ProtocolMode.OpenocdVpi,
  vpi_rx_bytes := 1036 }

/-- A minimal-mode connection with a complete 8-byte RESET command. -/
def c4_min_input : ServerState := { initialState with
  protocol_mode := ProtocolMode.OpenocdVpi,
  vpi_minimal_mode := true,
  minimal_rx_bytes := 8 }

/-- A legacy 8-byte RESET command frame. -/
def c4_legacy_cmd : VpiCmd := { cmd := 0, pad := fun _ => 0, length_buf := fun _ => 0 }

/-- A full-OpenOCD-mode connection holding a SCAN packet requesting 8192 bits —
twice the documented 4096-bit maximum (1024 data bytes against 512-byte buffers). -/
def c5_input : ServerState := { initialState with
  protocol_mode := ProtocolMode.OpenocdVpi,
  vpi_rx_bytes := 1036,
  vpi_cmd_rx := { zeroOcdVpiCmd with
    cmd_buf := host_to_le32 2,
    length_buf := host_to_le32 1024,
    nb_bits_buf := host_to_le32 8192 } }

/-- A legacy SCAN frame whose big-endian length field encodes 8192 bits. -/
def c6_scan_cmd : VpiCmd :=
  { cmd := 0x02, pad := fun _ => 0, length_buf := fun i => if i = 2 then 0x20 else 0 }

/-- A legacy frame with the out-of-range opcode 0x10. -/
def c6_bad_opcode : VpiCmd := { cmd := 0x10, pad := fun _ => 0, length_buf := fun _ => 0 }

/-- A legacy-dialect connection with a client attached (so that the response send
at the end of `process_command` is reached when the code gets there). -/
def c6_conn_state : ServerState := { initialState with
  protocol_mode := ProtocolMode.Legacy8Byte,
  client_connected := true }

/-- A full-OpenOCD-mode connection holding a packet with opcode 0x10. -/
def c6_vpi_bad : ServerState := { initialState with
  protocol_mode := ProtocolMode.OpenocdVpi,
  vpi_rx_bytes := 1036,
  vpi_cmd_rx := { zeroOcdVpiCmd with cmd_buf := host_to_le32 0x10 } }

/-- A connection whose dialect has been detected as OpenOCDFull, with the next
frame's 8 header bytes (a SET_PORT command) buffered. -/
def c7_full_state : ServerState := { initialState with
  protocol_mode := ProtocolMode.OpenocdVpi,
  vpi_minimal_mode := false,
  vpi_rx_bytes := 8,
  vpi_cmd_rx := { zeroOcdVpiCmd with cmd_buf := fun i => if i = 0 then 3 else 0 } }

/-- A connection torn down in the middle of an OScan1 edge with a pending TCK pulse
and queued reset pulses. -/
def c8_torn_input : ServerState := { initialState with
  protocol_mode := ProtocolMode.OpenocdVpi,
  sf0_state := SF0State.SendTms,
  pending_tck_pulse := true,
  reset_pulses_remaining := 3 }

/-- A full-OpenOCD-mode connection holding an OScan1 edge packet with TMS=1, TDI=0
(`buffer_out[0] = 0b10`). -/
def c9_input : ServerState := { initialState with
  protocol_mode := ProtocolMode.OpenocdVpi,
  vpi_rx_bytes := 1036,
  vpi_cmd_rx := { zeroOcdVpiCmd with
    cmd_buf := host_to_le32 5,
    buffer_out := fun i => if i = 0 then 2 else 0 } }

/-- A quiescent server with one posted TCK-pulse request. -/
def c10_input : ServerState := { initialState with pending_tck_pulse := true }

/-! Helper lemmas about `get_pending_signals`, bit indexing, and the scan engine. -/

/-- Bit positions inside a byte are below 8. -/
theorem bitPos_lt (m : Bool) (i : Nat) : bitPos m i < 8 := by
  unfold bitPos
  have : i % 8 < 8 := Nat.mod_lt _ (by norm_num)
  split <;> omega

/-- Equal bit positions force equal bit residues; the in-byte position map is
injective for either bit ordering. -/
theorem bitPos_inj (m : Bool) {i j : Nat} (h : bitPos m i = bitPos m j) : i % 8 = j % 8 := by
  unfold bitPos at h
  have hi : i % 8 < 8 := Nat.mod_lt _ (by norm_num)
  have hj : j % 8 < 8 := Nat.mod_lt _ (by norm_num)
  split at h <;> omega

/-- A TDO capture sets the targeted bit of the byte to the observed value. -/
theorem testBit_captureByte_self (b pos tdo : Nat) (hp : pos < 8) :
    (captureByte b pos tdo).testBit pos = decide (tdo ≠ 0) := by
  unfold captureByte
  by_cases h : tdo = 0
  · rw [if_neg (by simp [h]), show (255 : Nat) = 2 ^ 8 - 1 from by norm_num,
      Nat.one_shiftLeft, Nat.testBit_and, Nat.testBit_xor, Nat.testBit_two_pow_sub_one,
      Nat.testBit_two_pow]
    simp [h, hp]
  · rw [if_pos h, Nat.one_shiftLeft, Nat.testBit_or, Nat.testBit_two_pow]
    simp [h]

/-- A TDO capture leaves every other in-byte bit unchanged. -/
theorem testBit_captureByte_ne (b pos tdo q : Nat) (hq : q < 8) (hne : q ≠ pos) :
    (captureByte b pos tdo).testBit q = b.testBit q := by
  unfold captureByte
  by_cases h : tdo = 0
  · rw [if_neg (by simp [h]), show (255 : Nat) = 2 ^ 8 - 1 from by norm_num,
      Nat.one_shiftLeft, Nat.testBit_and, Nat.testBit_xor, Nat.testBit_two_pow_sub_one,
      Nat.testBit_two_pow]
    simp [hq, Ne.symm hne]
  · rw [if_pos h, Nat.one_shiftLeft, Nat.testBit_or, Nat.testBit_two_pow]
    simp [Ne.symm hne]

/-- Capturing bit `bit` stores the observed value at that bit's buffer position. -/
theorem testBit_scan_capture_self (buf : Nat → Nat) (bit : Nat) (m : Bool) (tdo : Nat) :
    (scan_capture buf bit m tdo (bit / 8)).testBit (bitPos m bit) = decide (tdo ≠ 0) := by
  unfold scan_capture
  rw [if_pos rfl]
  exact testBit_captureByte_self _ _ _ (bitPos_lt m bit)

/-- Capturing bit `bit` leaves every other bit's buffer position unchanged. -/
theorem testBit_scan_capture_ne (buf : Nat → Nat) (bit : Nat) (m : Bool) (tdo : Nat)
    (j : Nat) (hne : j ≠ bit) :
    (scan_capture buf bit m tdo (j / 8)).testBit (bitPos m j) =
      (buf (j / 8)).testBit (bitPos m j) := by
  unfold scan_capture
  by_cases hb : j / 8 = bit / 8
  · rw [if_pos hb, ← hb]
    refine testBit_captureByte_ne _ _ _ _ (bitPos_lt m j) ?_
    intro hpos
    have hmod : j % 8 = bit % 8 := bitPos_inj m hpos
    exact hne (by omega)
  · rw [if_neg hb]

/-- While a TCK pulse is pending, a poll reaching the scan engine is a no-op. -/
theorem csp_noop (s : ServerState) (h : s.pending_tck_pulse = true) :
    continue_scan_processing s = s := by
  simp [continue_scan_processing, h]

/-- Any number of polls while a TCK pulse is pending leave the state unchanged. -/
theorem pollN_noop (k : Nat) (s : ServerState) (h : s.pending_tck_pulse = true) :
    pollN k s = s := by
  induction k with
  | zero => rfl
  | succ k ih =>
      simp only [pollN]
      rw [csp_noop s h]
      exact ih

/-- With reset pulses queued, `get_pending_signals` serves one TMS=1 pulse and
decrements the queue. -/
theorem gps_reset_step (u : ServerState) (h : u.reset_pulses_remaining > 0) :
    get_pending_signals u =
      ({ u with reset_pulses_remaining := u.reset_pulses_remaining - 1 },
       some ⟨1, 0, u.pending_mode_select, true, false⟩) := by
  unfold get_pending_signals
  rw [if_pos h]

/-- With no reset pulses and something pending, `get_pending_signals` hands out the
request, clearing the pulse and toggle flags. -/
theorem gps_consume (u : ServerState) (h0 : u.reset_pulses_remaining = 0)
    (h : ¬(u.pending_tck_pulse = false ∧ u.pending_tckc_toggle = false ∧
           u.pending_mode_select = u.current_mode)) :
    get_pending_signals u =
      ({ u with pending_tck_pulse := false,
                tckc_toggle_consumed :=
                  if u.pending_tckc_toggle then true else u.tckc_toggle_consumed,
                pending_tckc_toggle := false },
       some ⟨u.pending_tms, u.pending_tdi, u.pending_mode_select,
             u.pending_tck_pulse, u.pending_tckc_toggle⟩) := by
  unfold get_pending_signals
  rw [if_neg (by omega), if_neg h]

/-- With nothing queued, pending or mismatched, `get_pending_signals` reports no
request and changes nothing. -/
theorem gps_none (u : ServerState) (h0 : u.reset_pulses_remaining = 0)
    (h : u.pending_tck_pulse = false ∧ u.pending_tckc_toggle = false ∧
         u.pending_mode_select = u.current_mode) :
    get_pending_signals u = (u, none) := by
  unfold get_pending_signals
  rw [if_neg (by omega), if_pos h]

/-- Draining `k` of the queued reset pulses leaves the rest of the queue. -/
theorem gpsIter_reset (s : ServerState) :
    ∀ k, k ≤ s.reset_pulses_remaining →
      gpsIter k s = { s with reset_pulses_remaining := s.reset_pulses_remaining - k } := by
  intro k
  induction k with
  | zero =>
      intro _
      simp only [gpsIter, Nat.sub_zero]
  | succ k ih =>
      intro hk
      simp only [gpsIter]
      rw [ih (by omega), gps_reset_step _ (show s.reset_pulses_remaining - k > 0 by omega)]
      rfl

/-- After a RESET leaves 6 queued pulses and one pending pulse, the driver receives
exactly 7 TMS=1 TCK-pulse requests back to back; the 8th pull returns nothing. -/
theorem reset_drain (s : ServerState) (h6 : s.reset_pulses_remaining = 6)
    (htms : s.pending_tms = 1) (htdi : s.pending_tdi = 0)
    (htck : s.pending_tck_pulse = true) (htckc : s.pending_tckc_toggle = false) :
    (∀ k, k < 7 → (get_pending_signals (gpsIter k s)).2 =
        some ⟨1, 0, s.pending_mode_select, true, false⟩) ∧
    (s.pending_mode_select = s.current_mode →
      (get_pending_signals (gpsIter 7 s)).2 = none) := by
  have h66 : gpsIter 6 s = { s with reset_pulses_remaining := 0 } := by
    have := gpsIter_reset s 6 (by omega)
    rw [h6] at this
    exact this
  have hcons : get_pending_signals ({ s with reset_pulses_remaining := 0 } : ServerState) =
      ({ s with reset_pulses_remaining := 0, pending_tck_pulse := false,
                tckc_toggle_consumed :=
                  if s.pending_tckc_toggle then true else s.tckc_toggle_consumed,
                pending_tckc_toggle := false },
       some ⟨s.pending_tms, s.pending_tdi, s.pending_mode_select,
             s.pending_tck_pulse, s.pending_tckc_toggle⟩) :=
    gps_consume _ rfl (by simp [htck])
  constructor
  · intro k hk
    rcases Nat.lt_or_ge k 6 with h | h
    · rw [gpsIter_reset s k (by omega),
        gps_reset_step _ (show s.reset_pulses_remaining - k > 0 by omega)]
    · have hk6 : k = 6 := by omega
      subst hk6
      rw [h66, hcons]
      simp [htms, htdi, htck, htckc]
  · intro hmode
    have h7 : gpsIter 7 s = (get_pending_signals (gpsIter 6 s)).1 := rfl
    rw [h7, h66, hcons]
    refine congrArg Prod.snd (gps_none _ rfl ⟨rfl, rfl, ?_⟩)
    exact hmode

/-- A full-mode RESET packet queues 6 reset pulses, posts one pending pulse and
queues the response packet. -/
theorem pvp_full_reset (s : ServerState) (hmin : s.vpi_minimal_mode = false)
    (hcmd : vpi_decoded_cmd s = 0) :
    (process_vpi_packet s).1 =
      { s with reset_pulses_remaining := 6, pending_tms := 1, pending_tdi := 0,
               pending_tck_pulse := true,
               vpi_cmd_tx := mk_tx_header (vpi_decoded_cmd s) 0 0,
               vpi_tx_pending := true, vpi_tx_bytes := 0 } := by
  simp only [process_vpi_packet]
  rw [if_pos hcmd, hmin]
  simp

/-- A legacy RESET command queues 6 reset pulses and posts one pending pulse. -/
theorem pc_legacy_reset (s : ServerState) (c : VpiCmd) (hc : c.cmd = 0)
    (hlen : be32_to_host c.length_buf ≤ 4096) :
    (process_command s c).1 =
      { s with reset_pulses_remaining := 6, pending_tms := 1, pending_tdi := 0,
               pending_tck_pulse := true } := by
  unfold process_command
  rw [if_neg (by omega), if_pos hc]

/-- A minimal-mode RESET sends the immediate response and then cancels both the
queued reset pulses and the pending pulse. -/
theorem pvp_minimal_reset (s : ServerState) (hmin : s.vpi_minimal_mode = true)
    (hcmd : vpi_decoded_cmd s = 0) :
    process_vpi_packet s =
      ({ s with reset_pulses_remaining := 0, pending_tms := 1, pending_tdi := 0,
                pending_tck_pulse := false, vpi_minimal_mode := true },
       some ⟨0, 0, s.current_mode, 0⟩) := by
  simp only [process_vpi_packet]
  rw [if_pos hcmd, hmin]
  simp [send_minimal_response]

/-- Processing any packet either preserves `protocol_mode` or resets it to Unknown
(the STOP branch, which calls the teardown). -/
theorem pvp_protocol_mode (s : ServerState) :
    (process_vpi_packet s).1.protocol_mode = s.protocol_mode ∨
    (process_vpi_packet s).1.protocol_mode = ProtocolMode.Unknown := by
  simp only [process_vpi_packet]
  split
  · split
    · exact Or.inl rfl
    · exact Or.inl rfl
  · split
    · split
      · exact Or.inl rfl
      · exact Or.inl rfl
    · split
      · split
        · exact Or.inl rfl
        · split
          · split
            · exact Or.inl rfl
            · exact Or.inl rfl
          · exact Or.inl rfl
      · split
        · exact Or.inr rfl
        · split
          · exact Or.inl rfl
          · exact Or.inl rfl

/-- One mid-scan driver round: the pending pulse is consumed, the previous bit's
TDO is captured, and the next bit's pulse is requested. -/
theorem scanRound_mid (u : ServerState) (tdo k : Nat)
    (hst : u.scan_state = ScanState.Processing)
    (hbi : 0 < u.scan_bit_index)
    (hlt : u.scan_bit_index < u.scan_num_bits)
    (hptck : u.pending_tck_pulse = true)
    (hreset : u.reset_pulses_remaining = 0) :
    scanRound u tdo k = { u with
      current_tdo := tdo,
      pending_tckc_toggle := false,
      tckc_toggle_consumed :=
        if u.pending_tckc_toggle then true else u.tckc_toggle_consumed,
      scan_tdo_buf := scan_capture u.scan_tdo_buf (u.scan_bit_index - 1) u.msb_first tdo,
      pending_tms := (u.scan_tms_buf (u.scan_bit_index / 8) >>>
        bitPos u.msb_first u.scan_bit_index) &&& 1,
      pending_tdi := (u.scan_tdi_buf (u.scan_bit_index / 8) >>>
        bitPos u.msb_first u.scan_bit_index) &&& 1,
      pending_tck_pulse := true,
      scan_bit_index := u.scan_bit_index + 1 } := by
  simp only [scanRound]
  rw [pollN_noop k u hptck, gps_consume u hreset (by simp [hptck])]
  unfold update_signals continue_scan_processing
  dsimp only
  rw [if_pos (show u.scan_state = ScanState.Processing from hst),
    if_neg (show ¬(false = true) from by simp),
    if_pos (show u.scan_bit_index > 0 from hbi),
    if_pos (show u.scan_bit_index < u.scan_num_bits from hlt)]

/-- The final driver round of an OpenOCD-mode scan: the last bit's TDO is captured
(twice, from the same observation) and the engine returns to `Idle`. -/
theorem scanRound_last (u : ServerState) (tdo k : Nat)
    (hst : u.scan_state = ScanState.Processing)
    (hbi : 0 < u.scan_bit_index)
    (hge : u.scan_num_bits ≤ u.scan_bit_index)
    (hptck : u.pending_tck_pulse = true)
    (hreset : u.reset_pulses_remaining = 0)
    (hleg : u.scan_is_legacy = false) :
    scanRound u tdo k = { u with
      current_tdo := tdo,
      pending_tck_pulse := false,
      pending_tckc_toggle := false,
      tckc_toggle_consumed :=
        if u.pending_tckc_toggle then true else u.tckc_toggle_consumed,
      scan_tdo_buf := scan_capture
        (scan_capture u.scan_tdo_buf (u.scan_bit_index - 1) u.msb_first tdo)
        (u.scan_bit_index - 1) u.msb_first tdo,
      scan_state := ScanState.Idle } := by
  simp only [scanRound]
  rw [pollN_noop k u hptck, gps_consume u hreset (by simp [hptck])]
  unfold update_signals continue_scan_processing
  dsimp only
  rw [if_pos (show u.scan_state = ScanState.Processing from hst),
    if_neg (show ¬(false = true) from by simp),
    if_pos (show u.scan_bit_index > 0 from hbi),
    if_neg (show ¬(u.scan_bit_index < u.scan_num_bits) from by omega),
    if_pos (show u.scan_bit_index > 0 from hbi),
    if_neg (show ¬(u.scan_is_legacy = true) from by simp [hleg])]

/-- The first poll of a freshly set-up scan requests bit 0's pulse and establishes
the invariant. -/
theorem scanInv_base (s0 : ServerState) (n : Nat) (S : Nat → Nat)
    (h1 : s0.scan_state = ScanState.Processing) (h2 : s0.scan_bit_index = 0)
    (h3 : s0.pending_tck_pulse = false) (h4 : s0.pending_tckc_toggle = false)
    (h5 : s0.reset_pulses_remaining = 0) (h6 : s0.scan_num_bits = n)
    (h7 : 1 ≤ n) (h9 : s0.scan_is_legacy = false) :
    ScanInv n s0.msb_first S 0 (continue_scan_processing s0) := by
  have hcsp : continue_scan_processing s0 = { s0 with
      pending_tms := (s0.scan_tms_buf (s0.scan_bit_index / 8) >>>
        bitPos s0.msb_first s0.scan_bit_index) &&& 1,
      pending_tdi := (s0.scan_tdi_buf (s0.scan_bit_index / 8) >>>
        bitPos s0.msb_first s0.scan_bit_index) &&& 1,
      pending_tck_pulse := true,
      scan_bit_index := s0.scan_bit_index + 1 } := by
    unfold continue_scan_processing
    dsimp only
    rw [if_pos (show s0.scan_state = ScanState.Processing from h1),
      if_neg (show ¬(s0.pending_tck_pulse = true) from by simp [h3]),
      if_neg (show ¬(s0.scan_bit_index > 0) from by omega),
      if_pos (show s0.scan_bit_index < s0.scan_num_bits from by omega)]
  rw [hcsp]
  refine ⟨h1, by simp [h2], rfl, h4, h5, h6, h9, rfl, ?_⟩
  intro j hj
  omega

/-- A mid-scan round preserves the invariant, adding the capture of bit `i`. -/
theorem scanInv_step (n : Nat) (m : Bool) (S : Nat → Nat) (i : Nat) (u : ServerState)
    (tdo k : Nat) (htdo : tdo = S i)
    (hInv : ScanInv n m S i u) (hlt : i + 1 < n) :
    ScanInv n m S (i + 1) (scanRound u tdo k) := by
  obtain ⟨hst, hbi, hptck, hptckc, hreset, hnum, hleg, hmsb, hcap⟩ := hInv
  rw [scanRound_mid u tdo k hst (by omega) (by omega) hptck hreset]
  refine ⟨hst, by simp [hbi], rfl, rfl, hreset, hnum, hleg, hmsb, ?_⟩
  intro j hj
  have hbit : u.scan_bit_index - 1 = i := by omega
  rw [hbit, hmsb]
  rcases Nat.lt_or_ge j i with h | h
  · rw [testBit_scan_capture_ne _ _ _ _ _ (by omega)]
    exact hcap j h
  · have hji : j = i := by omega
    subst hji
    rw [testBit_scan_capture_self, htdo]

/-- The invariant holds after every complete round before the last. -/
theorem scanRun_inv (n : Nat) (m : Bool) (S ks : Nat → Nat) (u0 : ServerState)
    (hbase : ScanInv n m S 0 u0) :
    ∀ i, i + 1 ≤ n → ScanInv n m S i (scanRun S ks i u0) := by
  intro i
  induction i with
  | zero => intro _; exact hbase
  | succ i ih =>
      intro hle
      have hprev := ih (by omega)
      simp only [scanRun]
      exact scanInv_step n m S i _ (S i) (ks i) rfl hprev (by omega)

/-! Claim theorems. -/

/-- Claim C1 (confirmed): for every `num_bits` in [1,4096], a SCAN operation in
which the driver consumes each requested TCK pulse and sets the observed TDO to
`S i` before the next poll ends with the scan engine idle and a TDO buffer whose
bit `i` — at byte `i / 8`, position `bitPos msb_first i` — equals `S i` for every
`i`, regardless of how many extra `poll()` calls (`ks`) occur between driver steps;
each bit's value comes from exactly the one observation `S i` of its round. -/
theorem c1_scan_tdo_capture (s0 : ServerState) (n : Nat) (S ks : Nat → Nat)
    (h1 : s0.scan_state = ScanState.Processing) (h2 : s0.scan_bit_index = 0)
    (h3 : s0.pending_tck_pulse = false) (h4 : s0.pending_tckc_toggle = false)
    (h5 : s0.reset_pulses_remaining = 0) (h6 : s0.scan_num_bits = n)
    (h7 : 1 ≤ n) (h8 : n ≤ 4096) (h9 : s0.scan_is_legacy = false) :
    (scanRun S ks n (continue_scan_processing s0)).scan_state = ScanState.Idle ∧
    ∀ i, i < n →
      ((scanRun S ks n (continue_scan_processing s0)).scan_tdo_buf (i / 8)).testBit
        (bitPos s0.msb_first i) = decide (S i ≠ 0) := by
  obtain ⟨p, rfl⟩ : ∃ p, n = p + 1 := ⟨n - 1, by omega⟩
  have hbase := scanInv_base s0 (p + 1) S h1 h2 h3 h4 h5 h6 h7 h9
  have hInv := scanRun_inv (p + 1) s0.msb_first S ks _ hbase p (by omega)
  obtain ⟨hst, hbi, hptck, hptckc, hreset, hnum, hleg, hmsb, hcap⟩ := hInv
  have hlast : scanRun S ks (p + 1) (continue_scan_processing s0) =
      scanRound (scanRun S ks p (continue_scan_processing s0)) (S p) (ks p) := rfl
  rw [hlast, scanRound_last _ _ _ hst (by omega) (by omega) hptck hreset hleg]
  set u := scanRun S ks p (continue_scan_processing s0) with hu
  constructor
  · rfl
  · intro i hi
    have hbit : u.scan_bit_index - 1 = p := by omega
    rw [hbit, hmsb]
    rcases Nat.lt_or_ge i p with h | h
    · rw [testBit_scan_capture_ne _ _ _ _ _ (by omega),
        testBit_scan_capture_ne _ _ _ _ _ (by omega)]
      exact hcap i h
    · have hip : i = p := by omega
      subst hip
      rw [testBit_scan_capture_self]

/-- Claim C1 witness: a concrete 2-bit scan with observed TDO sequence 1,0 and two
extra polls per round, evaluated through the theorem. -/
theorem c1_scan_tdo_capture_witness :
    (c1_start.scan_state = ScanState.Processing ∧ c1_start.scan_bit_index = 0 ∧
     c1_start.pending_tck_pulse = false ∧ c1_start.pending_tckc_toggle = false ∧
     c1_start.reset_pulses_remaining = 0 ∧ c1_start.scan_num_bits = 2 ∧
     1 ≤ 2 ∧ 2 ≤ 4096 ∧ c1_start.scan_is_legacy = false) ∧
    ((scanRun c1_S c1_ks 2 (continue_scan_processing c1_start)).scan_state =
      ScanState.Idle ∧
     ∀ i, i < 2 →
       ((scanRun c1_S c1_ks 2 (continue_scan_processing c1_start)).scan_tdo_buf
         (i / 8)).testBit (bitPos c1_start.msb_first i) = decide (c1_S i ≠ 0)) :=
  ⟨⟨rfl, rfl, rfl, rfl, rfl, rfl, by norm_num, by norm_num, rfl⟩,
   c1_scan_tdo_capture c1_start 2 c1_S c1_ks rfl rfl rfl rfl rfl rfl
     (by norm_num) (by norm_num) rfl⟩

/-- Claim C2 counterexample: with exactly 8 bytes buffered, no further data queued,
and first byte 0x07 (outside the opcode range), detection yields the dialect
OpenOCDMinimal — not Legacy8Byte as the claim states. -/
theorem c2_detection_counterexample :
    c2_input.minimal_cmd_rx.cmd = 0x07 ∧
    c2_input.minimal_rx_bytes = 8 ∧
    dialect (detect_protocol c2_input false) = Dialect.OpenocdMinimal ∧
    dialect (detect_protocol c2_input false) ≠ Dialect.Legacy8Byte := by
  refine ⟨rfl, rfl, by decide, by decide⟩

/-- Claim C2 (corrected): with at least 8 bytes buffered, detection resolves to
OpenOCDFull when more data is queued behind them and to OpenOCDMinimal otherwise,
regardless of the first byte's value; auto-detection never yields Legacy8Byte. -/
theorem c2_detection_amended (s : ServerState) (more : Bool)
    (h : s.minimal_rx_bytes ≥ 8) :
    dialect (detect_protocol s more) =
      if more then Dialect.OpenocdFull else Dialect.OpenocdMinimal := by
  have h1 : s.minimal_rx_bytes ≥ 1 := le_trans (by norm_num) h
  unfold detect_protocol
  rw [if_pos h1, if_pos h]
  cases more
  · simp [dialect]
  · simp [dialect]

/-- Claim C2 witness: the amended detection rule evaluated on the concrete 8-byte
state with more data queued, giving OpenOCDFull. -/
theorem c2_detection_amended_witness :
    c2_input.minimal_rx_bytes ≥ 8 ∧
    dialect (detect_protocol c2_input true) = Dialect.OpenocdFull := by
  refine ⟨by decide, ?_⟩
  have h := c2_detection_amended c2_input true (by decide)
  simpa using h

/-- Claim C3 (confirmed): the CRC-8 with polynomial 0x07, MSB-first, initial value
0xFF (`cjtag_crc8`) maps the bytes 0xAA, 0x55, 0xFF to 0x5A. -/
theorem c3_crc8_regression : cjtag_crc8 [0xAA, 0x55, 0xFF] = 0x5A := by decide

/-- Claim C4 counterexample: after a full-OpenOCD-mode RESET, a 7th TMS=1 TCK-pulse
request is still delivered (the 6 queued pulses plus the immediately pending one),
refuting "exactly 6"; the 8th pull returns nothing. -/
theorem c4_reset_counterexample :
    (get_pending_signals (gpsIter 6 (process_vpi_packet c4_full_input).1)).2 =
      some ⟨1, 0, 0, true, false⟩ ∧
    (get_pending_signals (gpsIter 7 (process_vpi_packet c4_full_input).1)).2 = none := by
  refine ⟨by decide, by decide⟩

/-- Claim C4 (corrected): a RESET in the full OpenOCD or legacy dialect delivers
exactly 7 TMS=1 TCK-pulse requests (6 queued reset pulses plus the one already
pending) before `get_pending_signals` returns nothing; in the minimal dialect the
handler cancels the pulses right after the immediate response, so none are
delivered. -/
theorem c4_reset_amended (s : ServerState) (c : VpiCmd) :
    (s.vpi_minimal_mode = false → vpi_decoded_cmd s = 0 →
      s.pending_tckc_toggle = false →
      (∀ k, k < 7 → (get_pending_signals (gpsIter k (process_vpi_packet s).1)).2 =
          some ⟨1, 0, s.pending_mode_select, true, false⟩) ∧
      (s.pending_mode_select = s.current_mode →
        (get_pending_signals (gpsIter 7 (process_vpi_packet s).1)).2 = none)) ∧
    (c.cmd = 0 → be32_to_host c.length_buf ≤ 4096 → s.pending_tckc_toggle = false →
      (∀ k, k < 7 → (get_pending_signals (gpsIter k (process_command s c).1)).2 =
          some ⟨1, 0, s.pending_mode_select, true, false⟩) ∧
      (s.pending_mode_select = s.current_mode →
        (get_pending_signals (gpsIter 7 (process_command s c).1)).2 = none)) ∧
    (s.vpi_minimal_mode = true → vpi_decoded_cmd s = 0 →
      s.pending_tckc_toggle = false → s.pending_mode_select = s.current_mode →
      (get_pending_signals (process_vpi_packet s).1).2 = none) := by
  refine ⟨?_, ?_, ?_⟩
  · intro hmin hcmd htckc
    rw [pvp_full_reset s hmin hcmd]
    exact reset_drain _ rfl rfl rfl rfl htckc
  · intro hc hlen htckc
    rw [pc_legacy_reset s c hc hlen]
    exact reset_drain _ rfl rfl rfl rfl htckc
  · intro hmin hcmd htckc hmode
    rw [pvp_minimal_reset s hmin hcmd]
    refine congrArg Prod.snd (gps_none _ rfl ⟨rfl, ?_, ?_⟩)
    · exact htckc
    · exact hmode

/-- Claim C4 witness: the amended reset behaviour evaluated at concrete inputs —
the full-mode RESET (7 pulses, then nothing), the legacy RESET (likewise) and the
minimal-mode RESET (nothing delivered). -/
theorem c4_reset_amended_witness :
    ((∀ k, k < 7 →
        (get_pending_signals (gpsIter k (process_vpi_packet c4_full_input).1)).2 =
          some ⟨1, 0, c4_full_input.pending_mode_select, true, false⟩) ∧
     (get_pending_signals (gpsIter 7 (process_vpi_packet c4_full_input).1)).2 = none) ∧
    ((∀ k, k < 7 →
        (get_pending_signals (gpsIter k (process_command c4_full_input c4_legacy_cmd).1)).2 =
          some ⟨1, 0, c4_full_input.pending_mode_select, true, false⟩) ∧
     (get_pending_signals (gpsIter 7 (process_command c4_full_input c4_legacy_cmd).1)).2 =
       none) ∧
    (get_pending_signals (process_vpi_packet c4_min_input).1).2 = none := by
  have hfull := (c4_reset_amended c4_full_input c4_legacy_cmd).1 rfl (by decide) rfl
  have hleg := (c4_reset_amended c4_full_input c4_legacy_cmd).2.1 rfl (by decide) rfl
  have hmin := (c4_reset_amended c4_min_input c4_legacy_cmd).2.2 rfl (by decide) rfl rfl
  exact ⟨⟨hfull.1, hfull.2 rfl⟩, ⟨hleg.1, hleg.2 rfl⟩, hmin⟩

/-- Claim C5 (code_bug): a full-OpenOCD-mode SCAN packet requesting 8192 bits is
not rejected — the scan engine enters `Processing` with `scan_num_bytes = 1024`,
twice the 512-byte capacity of the TMS/TDI/TDO buffers, so scan state is created
and the C code overruns its arrays (minimal mode and the legacy `process_scan`
do validate the bound). -/
theorem c5_full_scan_overflow :
    vpi_decoded_cmd c5_input = 2 ∧
    le32_to_host c5_input.vpi_cmd_rx.nb_bits_buf = 8192 ∧
    c5_input.scan_state = ScanState.Idle ∧
    (process_vpi_packet c5_input).1.scan_state = ScanState.Processing ∧
    (process_vpi_packet c5_input).1.scan_num_bits = 8192 ∧
    (process_vpi_packet c5_input).1.scan_num_bytes = 1024 := by
  refine ⟨by decide, by decide, rfl, by decide, by decide, by decide⟩

/-- Claim C6 counterexample: on a connected legacy client, a SCAN frame with
length 8192 bits (over the 4096-bit maximum) is answered with a transmitted OK
status 0 rather than an error status, and a frame with opcode 0x10 produces no
transmitted response at all — the error status is recorded in the local response
structure, but the validation branch returns before the send. -/
theorem c6_reject_counterexample :
    c6_scan_cmd.cmd = 0x02 ∧
    be32_to_host c6_scan_cmd.length_buf = 8192 ∧
    (process_command c6_conn_state c6_scan_cmd).2.2 = true ∧
    (process_command c6_conn_state c6_scan_cmd).2.1.response = 0 ∧
    (process_command c6_conn_state c6_scan_cmd).2.1.response ≠ 1 ∧
    c6_bad_opcode.cmd > 0x0F ∧
    (process_command c6_conn_state c6_bad_opcode).2.2 = false := by
  refine ⟨rfl, by decide, by decide, by decide, by decide, by decide, by decide⟩

/-- Claim C6 (corrected): a frame with opcode > 0x0F mutates no state in any
dialect, and no response is transmitted for it — the legacy dialect records
single-byte error status 1 in its response structure but returns before the send,
and the minimal/full dialects discard the frame silently; a legacy non-SCAN frame
with length > 4096 is likewise dropped with the error status recorded but not
transmitted, while a legacy SCAN frame with length > 4096 bits is discarded
without state mutation yet acknowledged with a transmitted OK status 0 (when a
client is connected) rather than an error status. -/
theorem c6_reject_amended (s : ServerState) (c : VpiCmd) :
    (c.cmd > 0x0F → process_command s c = (s, ⟨1, 0, 0, 0⟩, false)) ∧
    (c.cmd ≤ 0x0F → c.cmd ≠ 0x02 → be32_to_host c.length_buf > 4096 →
      process_command s c = (s, ⟨1, 0, 0, 0⟩, false)) ∧
    (c.cmd = 0x02 → be32_to_host c.length_buf > 4096 →
      process_command s c = (s, ⟨0, s.current_tdo, 0, 0⟩, s.client_connected)) ∧
    (vpi_decoded_cmd s > 0x0F → process_vpi_packet s = (s, none)) := by
  refine ⟨?_, ?_, ?_, ?_⟩
  · intro h
    unfold process_command
    rw [if_pos (Or.inl h)]
  · intro hle hne hlen
    unfold process_command
    rw [if_pos (Or.inr ⟨hlen, hne⟩)]
  · intro hcmd hlen
    unfold process_command
    rw [if_neg (by omega), if_neg (by omega), if_pos hcmd]
    unfold process_scan
    rw [if_pos (Or.inr hlen)]
  · intro h
    simp only [process_vpi_packet]
    rw [if_neg (by omega), if_neg (by omega), if_neg (by omega), if_neg (by omega),
      if_neg (by omega)]

/-- Claim C6 witness: the amended rejection rules evaluated on a connected legacy
client for a concrete bad opcode (no transmitted response) and the over-length
SCAN frame (transmitted OK status), and on the full dialect for the bad opcode. -/
theorem c6_reject_amended_witness :
    (c6_bad_opcode.cmd > 0x0F ∧
     process_command c6_conn_state c6_bad_opcode = (c6_conn_state, ⟨1, 0, 0, 0⟩, false)) ∧
    (c6_scan_cmd.cmd = 0x02 ∧ be32_to_host c6_scan_cmd.length_buf > 4096 ∧
     process_command c6_conn_state c6_scan_cmd =
       (c6_conn_state, ⟨0, c6_conn_state.current_tdo, 0, 0⟩,
        c6_conn_state.client_connected)) ∧
    (vpi_decoded_cmd c6_vpi_bad > 0x0F ∧
     process_vpi_packet c6_vpi_bad = (c6_vpi_bad, none)) :=
  ⟨⟨by decide, (c6_reject_amended c6_conn_state c6_bad_opcode).1 (by decide)⟩,
   ⟨rfl, by decide, (c6_reject_amended c6_conn_state c6_scan_cmd).2.2.1 rfl (by decide)⟩,
   ⟨by decide, (c6_reject_amended c6_vpi_bad c6_bad_opcode).2.2.2 (by decide)⟩⟩

/-- Claim C7 counterexample: a connection whose dialect is OpenOCDFull moves to
OpenOCDMinimal when the next frame's 8 header bytes arrive with nothing queued
behind them — the detected dialect is not sticky between the OpenOCD framings. -/
theorem c7_dialect_counterexample :
    dialect c7_full_state = Dialect.OpenocdFull ∧
    dialect (continue_vpi_work_detect c7_full_state false).1 = Dialect.OpenocdMinimal ∧
    Dialect.OpenocdMinimal ≠ Dialect.OpenocdFull := by
  refine ⟨by decide, by decide, by decide⟩

/-- Claim C7 (corrected): the protocol family (`protocol_mode`) never changes under
any of the modelled operations except connection teardown (STOP/disconnect), which
resets it to Unknown; the OpenOCDMinimal/OpenOCDFull framing distinction, however,
is re-assessed per frame and may flip. -/
theorem c7_dialect_amended (s : ServerState) (c : VpiCmd) (b : Bool)
    (t e idc md : Nat) :
    ((process_vpi_packet s).1.protocol_mode = s.protocol_mode ∨
      (process_vpi_packet s).1.protocol_mode = ProtocolMode.Unknown) ∧
    ((continue_vpi_work_detect s b).1.protocol_mode = s.protocol_mode ∨
      (continue_vpi_work_detect s b).1.protocol_mode = ProtocolMode.Unknown) ∧
    (continue_scan_processing s).protocol_mode = s.protocol_mode ∧
    (continue_vpi_work_sf0 s).protocol_mode = s.protocol_mode ∧
    (get_pending_signals s).1.protocol_mode = s.protocol_mode ∧
    (update_signals s t e idc md).protocol_mode = s.protocol_mode ∧
    (process_command s c).1.protocol_mode = s.protocol_mode ∧
    (close_connection s).protocol_mode = ProtocolMode.Unknown := by
  refine ⟨pvp_protocol_mode s, ?_, ?_, ?_, ?_, ?_, ?_, rfl⟩
  · simp only [continue_vpi_work_detect]
    split
    · split
      · rcases pvp_protocol_mode { s with
            vpi_minimal_mode := true,
            minimal_cmd_rx := { cmd := s.vpi_cmd_rx.cmd_buf 0,
                                pad := fun i => s.vpi_cmd_rx.cmd_buf (i + 1),
                                length_buf := s.vpi_cmd_rx.buffer_out },
            minimal_rx_bytes := 8,
            vpi_rx_bytes := 0,
            vpi_cmd_rx := zeroOcdVpiCmd } with h | h
        · exact Or.inl h
        · exact Or.inr h
      · exact Or.inl rfl
    · exact Or.inl rfl
  · unfold continue_scan_processing
    dsimp only
    repeat' split
    all_goals rfl
  · unfold continue_vpi_work_sf0
    dsimp only
    repeat' split
    all_goals rfl
  · unfold get_pending_signals
    repeat' split
    all_goals rfl
  · rfl
  · unfold process_command process_scan
    dsimp only
    repeat' split
    all_goals rfl

/-- Claim C8 counterexample: teardown in the middle of an OScan1 edge leaves the
SF0 engine phase, the pending TCK-pulse request and the queued reset pulses
untouched — the OScan1 engine and the pending-signal mailbox are not cleared. -/
theorem c8_teardown_counterexample :
    (close_connection c8_torn_input).sf0_state = SF0State.SendTms ∧
    (close_connection c8_torn_input).sf0_state ≠ SF0State.Idle ∧
    (close_connection c8_torn_input).pending_tck_pulse = true ∧
    (close_connection c8_torn_input).reset_pulses_remaining = 3 := by
  refine ⟨rfl, by decide, rfl, rfl⟩

/-- Claim C8 (corrected): connection teardown resets the dialect to Unknown and
clears the scan engine, the TMS-sequence state, the receive byte count, the
transmit-pending and minimal-mode flags and the connection flag, and is
idempotent; it does not clear the OScan1/SF0 engine phase, the pending signal
request, or the queued reset pulses, which survive into the next connection. -/
theorem c8_teardown_amended (s : ServerState) :
    (close_connection s).protocol_mode = ProtocolMode.Unknown ∧
    (close_connection s).scan_state = ScanState.Idle ∧
    (close_connection s).tms_seq_active = false ∧
    (close_connection s).vpi_rx_bytes = 0 ∧
    (close_connection s).vpi_tx_pending = false ∧
    (close_connection s).vpi_minimal_mode = false ∧
    (close_connection s).client_connected = false ∧
    (close_connection s).sf0_state = s.sf0_state ∧
    (close_connection s).pending_tck_pulse = s.pending_tck_pulse ∧
    (close_connection s).pending_tckc_toggle = s.pending_tckc_toggle ∧
    (close_connection s).reset_pulses_remaining = s.reset_pulses_remaining ∧
    (close_connection s).pending_tms = s.pending_tms ∧
    (close_connection s).minimal_rx_bytes = s.minimal_rx_bytes ∧
    close_connection (close_connection s) = close_connection s :=
  ⟨rfl, rfl, rfl, rfl, rfl, rfl, rfl, rfl, rfl, rfl, rfl, rfl, rfl, rfl⟩

/-- Claim C9 (confirmed): an OScan1 edge command with TMS=1, TDI=0, where the
driver consumes the TMS-phase TCKC toggle, then the TDI-phase toggle, and the
observed TDO is 1 when the TDI phase completes, yields a captured TDO of 1 in the
queued response packet and returns the SF0 engine to the idle phase. -/
theorem c9_oscan1_edge (s : ServerState) (hmin : s.vpi_minimal_mode = false)
    (hcmd : vpi_decoded_cmd s = 5) (hbuf : s.vpi_cmd_rx.buffer_out 0 = 2)
    (hreset : s.reset_pulses_remaining = 0) :
    (c9_run s).sf0_tdo = 1 ∧ (c9_run s).sf0_state = SF0State.Idle ∧
    (c9_run s).vpi_tx_pending = true ∧ (c9_run s).vpi_cmd_tx.buffer_in 0 = 1 := by
  have h1 : (process_vpi_packet s).1 =
      { s with pending_mode_select := 1, pending_tms := 1, pending_tdi := 0,
               pending_tckc_toggle := true,
               sf0_state := SF0State.SendTms, sf0_tms := 1, sf0_tdi := 0, sf0_tdo := 0,
               vpi_cmd_tx := mk_tx_header 5 1 2, vpi_tx_pending := false,
               vpi_tx_bytes := 0 } := by
    simp only [process_vpi_packet]
    rw [if_neg (by omega), if_neg (by omega), if_neg (by omega), if_neg (by omega),
      if_pos hcmd, hbuf]
    simp
  unfold c9_run
  rw [h1]
  simp [get_pending_signals, continue_vpi_work_sf0, update_signals, hreset, mk_tx_header,
    host_to_le32]

/-- Claim C9 witness: the edge sequence evaluated on a concrete full-mode packet
with `buffer_out[0] = 0b10`, through the theorem. -/
theorem c9_oscan1_edge_witness :
    (c9_input.vpi_minimal_mode = false ∧ vpi_decoded_cmd c9_input = 5 ∧
     c9_input.vpi_cmd_rx.buffer_out 0 = 2 ∧ c9_input.reset_pulses_remaining = 0) ∧
    ((c9_run c9_input).sf0_tdo = 1 ∧ (c9_run c9_input).sf0_state = SF0State.Idle ∧
     (c9_run c9_input).vpi_tx_pending = true ∧
     (c9_run c9_input).vpi_cmd_tx.buffer_in 0 = 1) :=
  ⟨⟨rfl, by decide, by decide, rfl⟩,
   c9_oscan1_edge c9_input rfl (by decide) (by decide) rfl⟩

/-- Claim C10 (confirmed): every `get_pending_signals` call that returns a request
from the non-reset path clears both the pending TCK-pulse and TCKC-toggle flags
before returning, and an immediately repeated call with no new request, no queued
reset pulses and no pending mode change returns nothing. -/
theorem c10_mailbox_once (s : ServerState) (hreset : s.reset_pulses_remaining = 0)
    (hsome : ((get_pending_signals s).2).isSome = true) :
    (get_pending_signals s).1.pending_tck_pulse = false ∧
    (get_pending_signals s).1.pending_tckc_toggle = false ∧
    ((get_pending_signals s).1.pending_mode_select =
        (get_pending_signals s).1.current_mode →
      (get_pending_signals (get_pending_signals s).1).2 = none) := by
  by_cases hq : s.pending_tck_pulse = false ∧ s.pending_tckc_toggle = false ∧
      s.pending_mode_select = s.current_mode
  · exfalso
    unfold get_pending_signals at hsome
    rw [if_neg (by omega), if_pos hq] at hsome
    simp at hsome
  · unfold get_pending_signals
    rw [if_neg (by omega), if_neg hq]
    refine ⟨rfl, rfl, ?_⟩
    intro hmode
    rw [if_neg (by simp [hreset]), if_pos ⟨rfl, rfl, hmode⟩]

/-- Claim C10 witness: the mailbox discipline evaluated on a concrete state with a
posted TCK-pulse request, through the theorem. -/
theorem c10_mailbox_once_witness :
    (c10_input.reset_pulses_remaining = 0 ∧
     ((get_pending_signals c10_input).2).isSome = true) ∧
    ((get_pending_signals c10_input).1.pending_tck_pulse = false ∧
     (get_pending_signals c10_input).1.pending_tckc_toggle = false ∧
     ((get_pending_signals c10_input).1.pending_mode_select =
         (get_pending_signals c10_input).1.current_mode →
       (get_pending_signals (get_pending_signals c10_input).1).2 = none)) :=
  ⟨⟨rfl, by decide⟩, c10_mailbox_once c10_input rfl (by decide)⟩

end JtagVpi
